import Mathlib

/-!
Verification of the identity-remapping storage core of a container engine:
the ID-map table (pkg/idtools), the remap-spec resolver and device-mapper
graph driver (daemon), the daemon-root layout manager, and the
privilege-separated layer applier (pkg/chrootarchive).

Go slices are embedded as `Option (List _)` (`none` is Go `nil`, `some l` a
non-nil slice holding `l`), Go `int` as `Int` (the values in play stay far
below 2^63, so Go overflow never fires on these paths), and Go `error`
results as `Except`.
-/

namespace IdTools

/-- One user-namespace remap range: container ids
`[containerID, containerID+size)` map to host ids `[hostID, hostID+size)`.
Mirrors `idtools.IDMap`. -/
structure IDMap where
  containerID : Int
  hostID : Int
  size : Int
deriving Repr, DecidableEq

/-- Linear scan of `TranslateIDToHost`: first range whose container
interval `[ContainerID, ContainerID+Size-1]` holds `contID` wins. -/
def translateToHostList (contID : Int) : List IDMap → Except String Int
  | [] => .error s!"Container ID {contID} cannot be mapped to a host ID"
  | m :: rest =>
    if m.containerID ≤ contID ∧ contID ≤ m.containerID + m.size - 1 then
      .ok (m.hostID + (contID - m.containerID))
    else
      translateToHostList contID rest

/-- `idtools.TranslateIDToHost`: a Go-`nil` map is the identity; otherwise
the ranges are scanned and a miss is an error. -/
def TranslateIDToHost (contID : Int) : Option (List IDMap) → Except String Int
  | none => .ok contID
  | some ms => translateToHostList contID ms

/-- Linear scan of `TranslateIDToContainer` on the host axis. -/
def translateToContainerList (hostID : Int) : List IDMap → Except String Int
  | [] => .error s!"Host ID {hostID} cannot be mapped to a container ID"
  | m :: rest =>
    if m.hostID ≤ hostID ∧ hostID ≤ m.hostID + m.size - 1 then
      .ok (m.containerID + (hostID - m.hostID))
    else
      translateToContainerList hostID rest

/-- `idtools.TranslateIDToContainer`: symmetric to `TranslateIDToHost`. -/
def TranslateIDToContainer (hostID : Int) : Option (List IDMap) → Except String Int
  | none => .ok hostID
  | some ms => translateToContainerList hostID ms

/-- Go `math.MaxInt32`. -/
def maxInt32 : Int := 2147483647

/-- `idtools.createIDMap`: the three-range "remap root only" table. The
third range's size is `math.MaxInt32 - id` in the source. -/
def createIDMap (id : Int) : List IDMap :=
  [ { containerID := 0, hostID := id, size := 1 },
    { containerID := 1, hostID := 1, size := id - 1 },
    { containerID := id + 1, hostID := id + 1, size := maxInt32 - id } ]

/-- `idtools.CreateIDMapsForRoot`: rejects `uid < 1 ∨ gid < 1`, otherwise
builds one three-range table per axis. -/
def CreateIDMapsForRoot (uid gid : Int) : Except String (List IDMap × List IDMap) :=
  if uid < 1 ∨ gid < 1 then
    .error "Cannot create ID maps: uid, gid out of remap range"
  else
    .ok (createIDMap uid, createIDMap gid)

/-- `idtools.GetRootUidGid`: translate container id 0 on each non-nil axis;
a nil axis defaults to host 0. -/
def GetRootUidGid (uidMap gidMap : Option (List IDMap)) : Except String (Int × Int) :=
  match uidMap with
  | none =>
    match gidMap with
    | none => .ok (0, 0)
    | some gs =>
      match translateToHostList 0 gs with
      | .error e => .error e
      | .ok g => .ok (0, g)
  | some us =>
    match translateToHostList 0 us with
    | .error e => .error e
    | .ok u =>
      match gidMap with
      | none => .ok (u, 0)
      | some gs =>
        match translateToHostList 0 gs with
        | .error e => .error e
        | .ok g => .ok (u, g)

deriving instance DecidableEq for Except

/-- `c` lies in range `m` on the container axis (the scan's test). -/
def coveredByRange (c : Int) (m : IDMap) : Prop :=
  m.containerID ≤ c ∧ c ≤ m.containerID + m.size - 1

instance (c : Int) (m : IDMap) : Decidable (coveredByRange c m) := by
  unfold coveredByRange; infer_instance

/-- `c` is covered by some range of the table on the container axis. -/
def coveredC (c : Int) (t : List IDMap) : Prop :=
  ∃ m ∈ t, coveredByRange c m

instance (c : Int) (t : List IDMap) : Decidable (coveredC c t) := by
  unfold coveredC; infer_instance

/-- `hID` lies in range `m` on the host axis (the scan's test). -/
def coveredByRangeH (hID : Int) (m : IDMap) : Prop :=
  m.hostID ≤ hID ∧ hID ≤ m.hostID + m.size - 1

instance (hID : Int) (m : IDMap) : Decidable (coveredByRangeH hID m) := by
  unfold coveredByRangeH; infer_instance

/-- `hID` is covered by some range of the table on the host axis. -/
def coveredH (hID : Int) (t : List IDMap) : Prop :=
  ∃ m ∈ t, coveredByRangeH hID m

instance (hID : Int) (t : List IDMap) : Decidable (coveredH hID t) := by
  unfold coveredH; infer_instance

end IdTools

namespace GoStrings

/-- Go `strings.Split` for a single-character separator, over the string's
character list: splitting the empty string yields `[""]`, and `n`
separators yield `n+1` fields. -/
def splitCharsOn (sep : Char) : List Char → List String
  | [] => [""]
  | c :: rest =>
    let r := splitCharsOn sep rest
    if c = sep then "" :: r
    else
      match r with
      | [] => [String.mk [c]]
      | h :: t => String.mk (c :: h.data) :: t

/-- Go `strings.Split(s, sep)` for a one-character `sep`. -/
def split (s : String) (sep : Char) : List String :=
  splitCharsOn sep s.data

end GoStrings

namespace Daemon

open IdTools GoStrings

/-- Accumulate base-10 digits; any non-digit character fails the parse. -/
def parseDigitsAux : List Char → Nat → Option Nat
  | [], acc => some acc
  | c :: rest, acc =>
    if c.isDigit then parseDigitsAux rest (acc * 10 + (c.toNat - 48)) else none

/-- Go `strconv.ParseInt(s, 10, 32)` as used by the resolver: optional
sign, base-10 digits, result constrained to the signed 32-bit range
(out-of-range input is an error, which the caller treats as
"not a number"). -/
def parseInt32 (s : String) : Option Int :=
  match s.data with
  | [] => none
  | '-' :: rest =>
    match rest with
    | [] => none
    | _ =>
      match parseDigitsAux rest 0 with
      | none => none
      | some n => if (n : Int) ≤ 2 ^ 31 then some (-(n : Int)) else none
  | '+' :: rest =>
    match rest with
    | [] => none
    | _ =>
      match parseDigitsAux rest 0 with
      | none => none
      | some n => if (n : Int) ≤ 2 ^ 31 - 1 then some (n : Int) else none
  | cs =>
    match parseDigitsAux cs 0 with
    | none => none
    | some n => if (n : Int) ≤ 2 ^ 31 - 1 then some (n : Int) else none

/-- The external name-resolution capability (`user.LookupUser` /
`user.LookupGroup`), an out-of-scope collaborator passed in abstractly. -/
structure IdLookup where
  lookupUser : String → Except String Int
  lookupGroup : String → Except String Int

/-- Body of `daemon.parseRemappedRoot` over the `:`-split component list
`idparts` (the Go code works off `strings.Split(usergrp, ":")`, which
always yields at least one component). -/
def parseRemappedRootParts (lk : IdLookup) (idparts : List String) :
    Except String (Int × Int) :=
  if 2 < idparts.length then
    .error "Invalid user/group specification in --root"
  else
    match idparts with
    | [] => .error "Invalid user/group specification in --root"
    | p0 :: rest =>
      let step1 : Except String (Int × Int) :=
        match parseInt32 p0 with
        | some uid =>
          if rest = [] then .ok (uid, uid) else .ok (uid, 0)
        | none =>
          match lk.lookupUser p0 with
          | .error e => .error s!"Error during uid lookup for {p0}: {e}"
          | .ok uid =>
            if rest = [] then
              match lk.lookupGroup p0 with
              | .error e => .error s!"Error during gid lookup for {p0}: {e}"
              | .ok gid => .ok (uid, gid)
            else .ok (uid, 0)
      match step1, rest with
      | .error e, _ => .error e
      | .ok ug, [] => .ok ug
      | .ok ug, p1 :: _ =>
        match parseInt32 p1 with
        | some gid => .ok (ug.1, gid)
        | none =>
          match lk.lookupGroup p1 with
          | .error e => .error s!"Error during gid lookup for {p1}: {e}"
          | .ok gid => .ok (ug.1, gid)

/-- `daemon.parseRemappedRoot`: split the spec on `:` and resolve. -/
def parseRemappedRoot (lk : IdLookup) (usergrp : String) : Except String (Int × Int) :=
  parseRemappedRootParts lk (split usergrp ':')

/-- `daemon.setupRemappedRoot`: guard on exec driver and platform, then an
empty spec means no remap (both maps stay Go-`nil`); otherwise resolve the
spec and build the tables. -/
def setupRemappedRoot (lk : IdLookup) (execDriver remappedRoot : String)
    (goosWindows : Bool) :
    Except String (Option (List IDMap) × Option (List IDMap)) :=
  if execDriver ≠ "native" ∧ remappedRoot ≠ "" then
    .error "User namespace root remapping is only supported with the native execdriver"
  else if goosWindows ∧ remappedRoot ≠ "" then
    .error "User namespaces are not supported on Windows"
  else if remappedRoot = "" then
    .ok (none, none)
  else
    match parseRemappedRoot lk remappedRoot with
    | .error e => .error e
    | .ok (uid, gid) =>
      match CreateIDMapsForRoot uid gid with
      | .error e => .error s!"Failed to create ID mappings for remapped root: {e}"
      | .ok (us, gs) => .ok (some us, some gs)

/-- Abstract state of the daemon root directory: whether `rootDir` exists,
its permission bits, the names directly under it, and the contents of its
`"0.0"` subdirectory (the only subdirectory the migration ever fills). -/
structure DirState where
  rootExists : Bool
  rootPerm : Nat
  entries : List String
  sub00 : List String
deriving Repr, DecidableEq

/-- `directory.MoveDirToSubdir rootDir subdir` specialised to the state
model: every entry other than `subdir` is renamed underneath `subdir`
(tracked in `sub00`, since the daemon only ever passes `"0.0"`); the second
component lists the entries moved. -/
def MoveDirToSubdir (st : DirState) (subdir : String) : DirState × List String :=
  ({ st with
      entries := st.entries.filter (fun n => n = subdir),
      sub00 := st.sub00 ++ st.entries.filter (fun n => n ≠ subdir) },
   st.entries.filter (fun n => n ≠ subdir))

/-- `daemon.setupDaemonRoot` over the state model. Fresh root: create
`rootDir` mode 0755 and the `"0.0"` subroot. Existing root without
`"0.0"`: create `"0.0"`, move the old contents under it, chmod the root
to 0755. Finally ensure the namespace subdirectory (`"0.0"`, or
`"<uid>.<gid>"` when a remap is configured) exists. The second component
lists the entries the migration moved. -/
def setupDaemonRoot (remapped : Bool) (rootUID rootGID : Int) (st : DirState) :
    DirState × List String :=
  let nsRoot := "0.0"
  let step1 : DirState × List String :=
    if st.rootExists then
      if nsRoot ∈ st.entries then (st, [])
      else
        let stA : DirState := { st with entries := nsRoot :: st.entries, sub00 := [] }
        let moved := MoveDirToSubdir stA nsRoot
        ({ moved.1 with rootPerm := 0o755 }, moved.2)
    else
      ({ rootExists := true, rootPerm := 0o755, entries := [nsRoot], sub00 := [] }, [])
  let nsName := if remapped then s!"{rootUID}.{rootGID}" else nsRoot
  let st2 :=
    if nsName ∈ step1.1.entries then step1.1
    else { step1.1 with entries := nsName :: step1.1.entries }
  (st2, step1.2)

end Daemon

namespace Devmapper

open IdTools

/-- Go `error` values as the driver observes them: `os.IsNotExist` /
`os.IsExist` classify, everything else is opaque. -/
inductive GoErr
  | notExist (msg : String)
  | exist (msg : String)
  | other (msg : String)
deriving Repr, DecidableEq

/-- `os.IsNotExist`. -/
def isNotExist : GoErr → Bool
  | .notExist _ => true
  | _ => false

/-- `os.IsExist`. -/
def isExist : GoErr → Bool
  | .exist _ => true
  | _ => false

/-- The Go pattern `if err != nil && !os.IsExist(err) { return err }`:
`none` means proceed (success or an already-exists error), `some e` means
propagate `e`. -/
def okOrExist : Except GoErr Unit → Option GoErr
  | .ok _ => none
  | .error e => if isExist e then none else some e

/-- Observable side effects of the driver, in program order. -/
inductive DriverAction
  | addDevice (id parent : String)
  | deleteDevice (id : String)
  | removeAll (p : String)
  | mkdirAllAs (p : String) (uid gid : Int)
  | mkdirAs (p : String) (uid gid : Int)
  | mountDevice (id mp label : String)
  | unmountDevice (id : String)
  | statFile (p : String)
  | writeFile (p : String) (content : String)
deriving Repr, DecidableEq

/-- The external `DeviceSet` capability, as result oracles: what each call
would return in the current world. -/
structure DeviceSetOracle where
  hasDevice : String → Bool
  deleteDevice : String → Except GoErr Unit
  mountDevice : String → String → String → Except GoErr Unit
  unmountDevice : String → Except GoErr Unit

/-- Result oracles for the filesystem calls the driver makes. -/
structure FsOracle where
  removeAll : String → Except GoErr Unit
  mkdirAllAs : String → Except GoErr Unit
  mkdirAs : String → Except GoErr Unit
  statFile : String → Except GoErr Unit
  writeFile : String → String → Except GoErr Unit

/-- `path.Join(home, "mnt", id)` for the clean paths the driver uses. -/
def mntPath (home id : String) : String := home ++ "/mnt/" ++ id

/-- `Driver.Remove`: a no-op when `HasDevice` is false; otherwise delete
the device, then remove the mountpoint tree, swallowing only a
does-not-exist error from the removal. Returns the Go result and the
action trace. -/
def driverRemove (ds : DeviceSetOracle) (fs : FsOracle) (home id : String) :
    Except GoErr Unit × List DriverAction :=
  if ds.hasDevice id = false then
    (.ok (), [])
  else
    match ds.deleteDevice id with
    | .error e => (.error e, [.deleteDevice id])
    | .ok _ =>
      let mp := mntPath home id
      match fs.removeAll mp with
      | .error e =>
        if isNotExist e then (.ok (), [.deleteDevice id, .removeAll mp])
        else (.error e, [.deleteDevice id, .removeAll mp])
      | .ok _ => (.ok (), [.deleteDevice id, .removeAll mp])

/-- `Driver.Get`: prepare `home/mnt` and the mountpoint with the remapped
root ownership, mount the device, create `rootfs` (unmounting on
failure), write the `id` marker if absent (unmounting on failure), and
return the `rootfs` path together with the action trace. -/
def driverGet (ds : DeviceSetOracle) (fs : FsOracle)
    (uidMaps gidMaps : Option (List IDMap)) (home id mountLabel : String) :
    Except GoErr String × List DriverAction :=
  let mp := mntPath home id
  match GetRootUidGid uidMaps gidMaps with
  | .error e => (.error (.other e), [])
  | .ok (uid, gid) =>
    let a1 := [DriverAction.mkdirAllAs (home ++ "/mnt") uid gid]
    match okOrExist (fs.mkdirAllAs (home ++ "/mnt")) with
    | some e => (.error e, a1)
    | none =>
      let a2 := a1 ++ [.mkdirAs mp uid gid]
      match okOrExist (fs.mkdirAs mp) with
      | some e => (.error e, a2)
      | none =>
        let a3 := a2 ++ [.mountDevice id mp mountLabel]
        match ds.mountDevice id mp mountLabel with
        | .error e => (.error e, a3)
        | .ok _ =>
          let rootFs := mp ++ "/rootfs"
          let a4 := a3 ++ [.mkdirAllAs rootFs uid gid]
          match okOrExist (fs.mkdirAllAs rootFs) with
          | some e => (.error e, a4 ++ [.unmountDevice id])
          | none =>
            let idFile := mp ++ "/id"
            let a5 := a4 ++ [.statFile idFile]
            match fs.statFile idFile with
            | .error se =>
              if isNotExist se then
                let a6 := a5 ++ [.writeFile idFile id]
                match fs.writeFile idFile id with
                | .error e => (.error e, a6 ++ [.unmountDevice id])
                | .ok _ => (.ok rootFs, a6)
              else (.ok rootFs, a5)
            | .ok _ => (.ok rootFs, a5)

/-- `Driver.Put`: unconditionally unmount (the error, if any, is logged
and returned). -/
def driverPut (ds : DeviceSetOracle) (id : String) :
    Except GoErr Unit × List DriverAction :=
  (ds.unmountDevice id, [.unmountDevice id])

/-- Number of `MountDevice` calls in a trace. -/
def countMounts (tr : List DriverAction) : Nat :=
  (tr.filter fun a => match a with | .mountDevice _ _ _ => true | _ => false).length

/-- Number of `UnmountDevice` calls in a trace. -/
def countUnmounts (tr : List DriverAction) : Nat :=
  (tr.filter fun a => match a with | .unmountDevice _ => true | _ => false).length

end Devmapper

namespace IdTools

open Devmapper

/-- Observable side effects of `idtools.mkdirAs`. -/
inductive MkdirAction
  | mkdirAll (p : String) (mode : Nat)
  | mkdir (p : String) (mode : Nat)
  | chown (p : String) (uid gid : Int)
deriving Repr, DecidableEq

/-- Result oracles for the primitive calls `idtools.mkdirAs` makes. -/
structure MkdirFs where
  mkdirAll : String → Nat → Except GoErr Unit
  mkdir : String → Nat → Except GoErr Unit
  chown : String → Int → Int → Except GoErr Unit

/-- `idtools.mkdirAs`: one `MkdirAll`/`Mkdir` on the full path (an
already-exists error is tolerated), then a single `Chown` of that same
full path — never of any parent. -/
def mkdirAs (fs : MkdirFs) (path : String) (mode : Nat) (ownerUid ownerGid : Int)
    (mkAll : Bool) : Except GoErr Unit × List MkdirAction :=
  let mkRes := if mkAll then fs.mkdirAll path mode else fs.mkdir path mode
  let mkAct := if mkAll then MkdirAction.mkdirAll path mode else MkdirAction.mkdir path mode
  match okOrExist mkRes with
  | some e => (.error e, [mkAct])
  | none =>
    match fs.chown path ownerUid ownerGid with
    | .error e => (.error e, [mkAct, .chown path ownerUid ownerGid])
    | .ok _ => (.ok (), [mkAct, .chown path ownerUid ownerGid])

/-- `idtools.MkdirAllAs`. -/
def MkdirAllAs (fs : MkdirFs) (path : String) (mode : Nat) (ownerUid ownerGid : Int) :
    Except GoErr Unit × List MkdirAction :=
  mkdirAs fs path mode ownerUid ownerGid true

/-- `idtools.MkdirAs`. -/
def MkdirAs (fs : MkdirFs) (path : String) (mode : Nat) (ownerUid ownerGid : Int) :
    Except GoErr Unit × List MkdirAction :=
  mkdirAs fs path mode ownerUid ownerGid false

end IdTools

namespace Chrootarchive

/-- A tar entry: slash-separated name and file content. -/
structure TarEntry where
  name : String
  content : String
deriving Repr, DecidableEq

/-- Modelled from the spec: path resolution under an OS-level `chroot`.
The chroot syscall itself is outside src/ (it is the OS boundary §4.5
relies on); per the spec, every path the child resolves is interpreted
relative to `destinationPath`, with `".."` clamped at the chroot root, so
`"."`, empty components and root-escaping `".."` can never leave it. -/
def normalizePath (comps : List String) : List String :=
  comps.foldl
    (fun acc c =>
      if c = "" ∨ c = "." then acc
      else if c = ".." then acc.dropLast
      else acc ++ [c])
    []

/-- Where an entry name lands once the child has chrooted into `dest`
(paths as component lists). -/
def chrootResolve (dest : List String) (p : List String) : List String :=
  dest ++ normalizePath p

/-- Modelled from the spec: `archive.UnpackLayer` (the out-of-scope tar
codec) materialises each entry at its chroot-relative resolved path. -/
def unpackLayerChrooted (dest : List String) (entries : List TarEntry) :
    List (List String × String) :=
  entries.map (fun e => (chrootResolve dest (GoStrings.split e.name '/'), e.content))

/-- Modelled from the spec: the unpacked byte size the codec reports — the
total content bytes of the stream's entries. -/
def layerSize (entries : List TarEntry) : Nat :=
  (entries.map (fun e => e.content.length)).sum

/-- `chrootarchive.ApplyLayer` composed with the child `applyLayer`
sequence of diff.go: the child chroots into `dest` before unpacking, so
unpacking happens entirely chroot-relative; the parent reports the child's
`layerSize`. Returns the reported size and the files materialised. -/
def ApplyLayer (dest : List String) (entries : List TarEntry) :
    Nat × List (List String × String) :=
  (layerSize entries, unpackLayerChrooted dest entries)

end Chrootarchive

namespace Daemon

/-- A lookup capability in which every name is unknown. -/
def lkEmpty : IdLookup :=
  ⟨fun _ => .error "no such user", fun _ => .error "no such group"⟩

end Daemon

namespace Devmapper

/-- A DeviceSet world in which no device exists (all calls succeed). -/
def dsAbsent : DeviceSetOracle :=
  ⟨fun _ => false, fun _ => .ok (), fun _ _ _ => .ok (), fun _ => .ok ()⟩

/-- A DeviceSet world in which every device exists and all calls
succeed. -/
def dsPresent : DeviceSetOracle :=
  ⟨fun _ => true, fun _ => .ok (), fun _ _ _ => .ok (), fun _ => .ok ()⟩

/-- A filesystem world in which every call succeeds and the id marker file
is absent. -/
def fsOk : FsOracle :=
  ⟨fun _ => .ok (), fun _ => .ok (), fun _ => .ok (),
   fun _ => .error (.notExist "no id file"), fun _ _ => .ok ()⟩

/-- A filesystem world in which creating the rootfs subdirectory under the
mountpoint of device `i` in home `h` fails. -/
def fsRootfsFail : FsOracle :=
  ⟨fun _ => .ok (),
   fun p => if p = "h/mnt/i/rootfs" then .error (.other "boom") else .ok (),
   fun _ => .ok (),
   fun _ => .error (.notExist "no id file"),
   fun _ _ => .ok ()⟩

/-- The trace of a successful Get of device `i` in home `h` under `fsOk`:
prepare the directories, mount, create rootfs, stat and write the
marker. -/
def getTrace : List DriverAction :=
  [.mkdirAllAs "h/mnt" 0 0, .mkdirAs "h/mnt/i" 0 0,
   .mountDevice "i" "h/mnt/i" "lbl", .mkdirAllAs "h/mnt/i/rootfs" 0 0,
   .statFile "h/mnt/i/id", .writeFile "h/mnt/i/id" "i"]

end Devmapper

namespace IdTools

/-- A filesystem world for mkdirAs in which every call succeeds. -/
def mfsOk : MkdirFs :=
  ⟨fun _ _ => .ok (), fun _ _ => .ok (), fun _ _ _ => .ok ()⟩

end IdTools

namespace IdTools

/-- Any container id in `[1, MaxInt32]` other than the remap target is
translated to itself by the three-range table. -/
theorem translateToHostList_identityRange (id c : Int) (hc1 : 1 ≤ c)
    (hc2 : c ≤ maxInt32) (hne : c ≠ id) :
    translateToHostList c (createIDMap id) = .ok c := by
  simp only [createIDMap, translateToHostList, maxInt32] at *
  split_ifs <;> simp_all <;> omega

/-- A table miss on the container axis yields the unmappable-id error. -/
theorem translateToHostList_miss (id : Int) (ms : List IDMap)
    (h : ¬ coveredC id ms) :
    translateToHostList id ms =
      .error s!"Container ID {id} cannot be mapped to a host ID" := by
  induction ms with
  | nil => rfl
  | cons m rest ih =>
    have hm : ¬ coveredByRange id m := fun hc => h ⟨m, List.mem_cons_self m rest, hc⟩
    have hm' : ¬ (m.containerID ≤ id ∧ id ≤ m.containerID + m.size - 1) := hm
    have hrest : ¬ coveredC id rest :=
      fun hcv => by
        obtain ⟨m', hm'', hc⟩ := hcv
        exact h ⟨m', List.mem_cons_of_mem m hm'', hc⟩
    rw [translateToHostList, if_neg hm']
    exact ih hrest

/-- A table miss on the host axis yields the unmappable-id error. -/
theorem translateToContainerList_miss (id : Int) (ms : List IDMap)
    (h : ¬ coveredH id ms) :
    translateToContainerList id ms =
      .error s!"Host ID {id} cannot be mapped to a container ID" := by
  induction ms with
  | nil => rfl
  | cons m rest ih =>
    have hm : ¬ coveredByRangeH id m := fun hc => h ⟨m, List.mem_cons_self m rest, hc⟩
    have hm' : ¬ (m.hostID ≤ id ∧ id ≤ m.hostID + m.size - 1) := hm
    have hrest : ¬ coveredH id rest :=
      fun hcv => by
        obtain ⟨m', hm'', hc⟩ := hcv
        exact h ⟨m', List.mem_cons_of_mem m hm'', hc⟩
    rw [translateToContainerList, if_neg hm']
    exact ih hrest

theorem trHost_zero (id : Int) :
    translateToHostList 0 (createIDMap id) = .ok id := by
  simp only [createIDMap, translateToHostList, maxInt32]
  split_ifs <;> simp_all <;> omega

theorem trHost_low (id c : Int) (hc1 : 1 ≤ c) (hc2 : c ≤ id - 1) :
    translateToHostList c (createIDMap id) = .ok c := by
  simp only [createIDMap, translateToHostList, maxInt32]
  split_ifs <;> simp_all <;> omega

theorem trHost_high (id c : Int) (h1 : 1 ≤ id) (hc1 : id + 1 ≤ c) (hc2 : c ≤ maxInt32) :
    translateToHostList c (createIDMap id) = .ok c := by
  simp only [createIDMap, translateToHostList, maxInt32] at *
  split_ifs <;> simp_all <;> omega

theorem trCont_target (id : Int) :
    translateToContainerList id (createIDMap id) = .ok 0 := by
  simp only [createIDMap, translateToContainerList, maxInt32]
  split_ifs <;> simp_all <;> omega

theorem trCont_low (id c : Int) (hc1 : 1 ≤ c) (hc2 : c ≤ id - 1) :
    translateToContainerList c (createIDMap id) = .ok c := by
  simp only [createIDMap, translateToContainerList, maxInt32]
  split_ifs <;> simp_all <;> omega

theorem trCont_high (id c : Int) (h1 : 1 ≤ id) (hc1 : id + 1 ≤ c) (hc2 : c ≤ maxInt32) :
    translateToContainerList c (createIDMap id) = .ok c := by
  simp only [createIDMap, translateToContainerList, maxInt32] at *
  split_ifs <;> simp_all <;> omega

theorem coveredC_createIDMap (id c : Int) (hc : coveredC c (createIDMap id)) :
    c = 0 ∨ (1 ≤ c ∧ c ≤ id - 1) ∨ (id + 1 ≤ c ∧ c ≤ maxInt32) := by
  obtain ⟨m, hm, hcr⟩ := hc
  simp only [createIDMap, List.mem_cons, List.not_mem_nil, or_false] at hm
  simp only [maxInt32]
  rcases hm with rfl | rfl | rfl <;> simp only [coveredByRange, maxInt32] at hcr <;> omega

/-- Claim C1 counterexample: with uid 5, CreateIDMapsForRoot builds the
table whose third range has size MaxInt32 - 5, not MaxUint32 - 5; the
table does not cover the 32-bit unsigned space (container id 2^32 - 1 is
unmappable) and container id 5 — a non-root container id — is unmappable
rather than identity-mapped. -/
theorem createIDMap_not_maxuint32 :
    CreateIDMapsForRoot 5 5 = .ok (createIDMap 5, createIDMap 5) ∧
    createIDMap 5 ≠
      [⟨0, 5, 1⟩, ⟨1, 1, 4⟩, ⟨6, 6, 4294967295 - 5⟩] ∧
    TranslateIDToHost 4294967295 (some (createIDMap 5)) ≠ .ok 4294967295 ∧
    TranslateIDToHost 5 (some (createIDMap 5)) ≠ .ok 5 := by
  refine ⟨by decide, by decide, by decide, by decide⟩

/-- Claim C1 (amended): for uid ≥ 1, CreateIDMapsForRoot builds per axis
exactly the ranges (0, id, 1), (1, 1, id-1), (id+1, id+1, MaxInt32-id);
the resulting table sends container 0 to host id and is the identity on
every container id c with 1 ≤ c ≤ MaxInt32 = 2^31-1 and c ≠ id; ids above
MaxInt32 and the id c = id are outside every range (id ≤ MaxInt32 holds for
every uid the resolver can produce, since it parses 32-bit integers). -/
theorem createIDMap_coverage (id : Int) (h1 : 1 ≤ id) (h2 : id ≤ maxInt32) :
    CreateIDMapsForRoot id id = .ok (createIDMap id, createIDMap id) ∧
    createIDMap id =
      [⟨0, id, 1⟩, ⟨1, 1, id - 1⟩, ⟨id + 1, id + 1, maxInt32 - id⟩] ∧
    TranslateIDToHost 0 (some (createIDMap id)) = .ok id ∧
    (∀ c : Int, 1 ≤ c → c ≤ maxInt32 → c ≠ id →
      TranslateIDToHost c (some (createIDMap id)) = .ok c) ∧
    (∀ c : Int, maxInt32 < c → ¬ coveredC c (createIDMap id)) ∧
    ¬ coveredC id (createIDMap id) := by
  refine ⟨?_, rfl, trHost_zero id, ?_, ?_, ?_⟩
  · unfold CreateIDMapsForRoot
    rw [if_neg (by omega)]
  · intro c hc1 hc2 hne
    exact translateToHostList_identityRange id c hc1 hc2 hne
  · intro c hc hcov
    rcases coveredC_createIDMap id c hcov with h | h | h <;> simp only [maxInt32] at * <;> omega
  · intro hcov
    rcases coveredC_createIDMap id id hcov with h | h | h <;> omega

/-- Claim C1 witness: instantiation at uid 5, container id 7. -/
theorem createIDMap_coverage_witness :
    TranslateIDToHost 0 (some (createIDMap 5)) = .ok 5 ∧
    TranslateIDToHost 7 (some (createIDMap 5)) = .ok 7 :=
  ⟨(createIDMap_coverage 5 (by norm_num) (by decide)).2.2.1,
   (createIDMap_coverage 5 (by norm_num) (by decide)).2.2.2.1 7 (by norm_num) (by decide) (by norm_num)⟩

/-- Claim C3 counterexample: a non-nil empty (zero-range) table is not
treated as identity — only a Go-nil table is; translating id 5 through the
empty table fails with the unmappable-id error on both axes. -/
theorem emptyTable_not_identity :
    TranslateIDToHost 5 (some []) =
      .error "Container ID 5 cannot be mapped to a host ID" ∧
    TranslateIDToContainer 5 (some []) =
      .error "Host ID 5 cannot be mapped to a container ID" := by
  exact ⟨rfl, rfl⟩

/-- Claim C3 (amended): a Go-nil table is the identity, with no error, on
both axes; for any id covered by no range of a non-nil table — including
the non-nil empty table — both translations fail with the unmappable-id
error rather than defaulting to identity. -/
theorem translate_nil_identity_miss_error :
    (∀ id : Int, TranslateIDToHost id none = .ok id) ∧
    (∀ id : Int, TranslateIDToContainer id none = .ok id) ∧
    (∀ (id : Int) (ms : List IDMap), ¬ coveredC id ms →
      TranslateIDToHost id (some ms) =
        .error s!"Container ID {id} cannot be mapped to a host ID") ∧
    (∀ (id : Int) (ms : List IDMap), ¬ coveredH id ms →
      TranslateIDToContainer id (some ms) =
        .error s!"Host ID {id} cannot be mapped to a container ID") :=
  ⟨fun _ => rfl, fun _ => rfl,
   fun id ms h => translateToHostList_miss id ms h,
   fun id ms h => translateToContainerList_miss id ms h⟩

/-- Claim C3 witness: the nil table maps 7 to itself; id 5 misses the
one-range table (9..9) and fails. -/
theorem translate_nil_identity_miss_error_witness :
    TranslateIDToHost 7 none = .ok 7 ∧
    TranslateIDToHost 5 (some [⟨0, 9, 1⟩]) =
      .error s!"Container ID {(5 : Int)} cannot be mapped to a host ID" :=
  ⟨translate_nil_identity_miss_error.1 7,
   translate_nil_identity_miss_error.2.2.1 5 [⟨0, 9, 1⟩] (by decide)⟩

/-- Claim C4: for any table built by CreateIDMapsForRoot from id ≥ 1 and
any container id c covered by some of its ranges, translating c to the
host axis and back returns c. -/
theorem createIDMap_roundtrip (id c : Int) (h1 : 1 ≤ id)
    (hc : coveredC c (createIDMap id)) :
    ∃ hI : Int, TranslateIDToHost c (some (createIDMap id)) = .ok hI ∧
      TranslateIDToContainer hI (some (createIDMap id)) = .ok c := by
  rcases coveredC_createIDMap id c hc with h | h | h
  · subst h
    exact ⟨id, trHost_zero id, trCont_target id⟩
  · exact ⟨c, trHost_low id c h.1 h.2, trCont_low id c h.1 h.2⟩
  · exact ⟨c, trHost_high id c h1 h.1 h.2, trCont_high id c h1 h.1 h.2⟩

/-- Claim C4 witness: uid 5, container id 7 (covered by the third range)
round-trips. -/
theorem createIDMap_roundtrip_witness :
    ∃ hI : Int, TranslateIDToHost 7 (some (createIDMap 5)) = .ok hI ∧
      TranslateIDToContainer hI (some (createIDMap 5)) = .ok 7 :=
  createIDMap_roundtrip 5 7 (by norm_num) (by decide)

/-- Claim C9: in the table built for remap target id ≥ 1, the container id
equal to id itself lies in no range, so its host translation fails; and
host id 0 lies in no range, so its container translation fails. -/
theorem remap_target_and_host_root_unmapped (id : Int) (h1 : 1 ≤ id) :
    TranslateIDToHost id (some (createIDMap id)) =
      .error s!"Container ID {id} cannot be mapped to a host ID" ∧
    TranslateIDToContainer 0 (some (createIDMap id)) =
      .error s!"Host ID {(0 : Int)} cannot be mapped to a container ID" := by
  constructor
  · refine translateToHostList_miss id _ ?_
    intro hcov
    rcases coveredC_createIDMap id id hcov with h | h | h <;> omega
  · refine translateToContainerList_miss 0 _ ?_
    intro hcov
    obtain ⟨m, hm, hcr⟩ := hcov
    simp only [createIDMap, List.mem_cons, List.not_mem_nil, or_false] at hm
    rcases hm with rfl | rfl | rfl <;> simp only [coveredByRangeH, maxInt32] at hcr <;> omega

/-- Claim C9 witness: instantiation at uid 5. -/
theorem remap_target_and_host_root_unmapped_witness :
    TranslateIDToHost 5 (some (createIDMap 5)) =
      .error s!"Container ID {(5 : Int)} cannot be mapped to a host ID" ∧
    TranslateIDToContainer 0 (some (createIDMap 5)) =
      .error s!"Host ID {(0 : Int)} cannot be mapped to a container ID" :=
  remap_target_and_host_root_unmapped 5 (by norm_num)

end IdTools

namespace Daemon

theorem parseParts_single (lk : IdLookup) (a : String) (A : Int)
    (hA : parseInt32 a = some A) :
    parseRemappedRootParts lk [a] = .ok (A, A) := by
  simp [parseRemappedRootParts, hA]

theorem parseParts_pair (lk : IdLookup) (a b : String) (A B : Int)
    (hA : parseInt32 a = some A) (hB : parseInt32 b = some B) :
    parseRemappedRootParts lk [a, b] = .ok (A, B) := by
  simp [parseRemappedRootParts, hA, hB]

theorem parseParts_toolong (lk : IdLookup) (parts : List String)
    (h : 2 < parts.length) :
    parseRemappedRootParts lk parts =
      .error "Invalid user/group specification in --root" := by
  unfold parseRemappedRootParts
  rw [if_pos h]

/-- Claim C6: the resolver takes an empty spec as "no remap" (both maps
stay nil); a spec splitting on `:` into more than two components is
rejected as invalid; a single component parsing as a base-10 32-bit
integer A yields (A, A); two integer components A and B yield (A, B); and
when the integer parse succeeds the name-lookup capability is never
consulted (the result does not depend on it). -/
theorem parseRemappedRoot_resolution :
    (∀ lk : IdLookup, setupRemappedRoot lk "native" "" false = .ok (none, none)) ∧
    (∀ (lk : IdLookup) (s : String), 2 < (GoStrings.split s ':').length →
      parseRemappedRoot lk s = .error "Invalid user/group specification in --root") ∧
    (∀ (lk : IdLookup) (a : String) (A : Int), parseInt32 a = some A →
      parseRemappedRootParts lk [a] = .ok (A, A)) ∧
    (∀ (lk : IdLookup) (a b : String) (A B : Int),
      parseInt32 a = some A → parseInt32 b = some B →
      parseRemappedRootParts lk [a, b] = .ok (A, B)) ∧
    (∀ (lk lk2 : IdLookup) (a b : String) (A B : Int),
      parseInt32 a = some A → parseInt32 b = some B →
      parseRemappedRootParts lk [a] = parseRemappedRootParts lk2 [a] ∧
      parseRemappedRootParts lk [a, b] = parseRemappedRootParts lk2 [a, b]) := by
  refine ⟨fun lk => rfl, ?_, parseParts_single, parseParts_pair, ?_⟩
  · intro lk s h
    exact parseParts_toolong lk _ h
  · intro lk lk2 a b A B hA hB
    rw [parseParts_single lk a A hA, parseParts_single lk2 a A hA,
        parseParts_pair lk a b A B hA hB, parseParts_pair lk2 a b A B hA hB]
    exact ⟨rfl, rfl⟩

/-- Claim C6 witness: the concrete inputs of §8 of the spec. -/
theorem parseRemappedRoot_resolution_witness :
    setupRemappedRoot lkEmpty "native" "" false = .ok (none, none) ∧
    parseRemappedRoot lkEmpty "a:b:c" =
      .error "Invalid user/group specification in --root" ∧
    parseRemappedRootParts lkEmpty ["1000"] = .ok (1000, 1000) ∧
    parseRemappedRootParts lkEmpty ["1000", "2000"] = .ok (1000, 2000) :=
  ⟨parseRemappedRoot_resolution.1 lkEmpty,
   parseRemappedRoot_resolution.2.1 lkEmpty "a:b:c" (by decide),
   parseRemappedRoot_resolution.2.2.1 lkEmpty "1000" 1000 (by decide),
   parseRemappedRoot_resolution.2.2.2.1 lkEmpty "1000" "2000" 1000 2000
     (by decide) (by decide)⟩

/-- After any no-remap run of setupDaemonRoot, the root exists and holds
the `"0.0"` namespace subdirectory. -/
theorem setupDaemonRoot_establishes (u g : Int) (st : DirState) :
    ((setupDaemonRoot false u g st).1).rootExists = true ∧
    "0.0" ∈ ((setupDaemonRoot false u g st).1).entries := by
  unfold setupDaemonRoot MoveDirToSubdir
  by_cases h1 : st.rootExists
  · by_cases h2 : "0.0" ∈ st.entries
    · simp [h1, h2]
    · simp [h1, h2, List.filter]
  · simp [h1]

/-- A no-remap run on a state that already has the `"0.0"` subdirectory
changes nothing and moves nothing. -/
theorem setupDaemonRoot_noop (u g : Int) (st : DirState)
    (h1 : st.rootExists = true) (h2 : "0.0" ∈ st.entries) :
    setupDaemonRoot false u g st = (st, []) := by
  unfold setupDaemonRoot
  simp [h1, h2]

/-- Claim C5: on a fresh non-existent root, setupDaemonRoot creates the
root (perm 0755) holding exactly the `"0.0"` subroot and moves nothing; on
an existing root without `"0.0"` it creates `"0.0"`, moves every prior
entry into it, and relaxes the root to perm 0755; and a second run in a
row changes nothing and performs no further moves. -/
theorem setupDaemonRoot_migration (u g : Int) (st : DirState) :
    (st.rootExists = false →
      setupDaemonRoot false u g st =
        (⟨true, 0o755, ["0.0"], []⟩, [])) ∧
    (st.rootExists = true → "0.0" ∉ st.entries →
      setupDaemonRoot false u g st =
        (⟨true, 0o755, ["0.0"], st.entries⟩, st.entries)) ∧
    (setupDaemonRoot false u g (setupDaemonRoot false u g st).1 =
      ((setupDaemonRoot false u g st).1, [])) := by
  refine ⟨?_, ?_, ?_⟩
  · intro h
    unfold setupDaemonRoot
    simp [h]
  · intro h1 h2
    unfold setupDaemonRoot MoveDirToSubdir
    have hf1 : st.entries.filter (fun n => n = "0.0") = [] := by
      simp only [List.filter_eq_nil_iff]
      intro a ha
      simp only [decide_eq_true_eq]
      exact fun e => h2 (e ▸ ha)
    have hf2 : st.entries.filter (fun n => n ≠ "0.0") = st.entries := by
      rw [List.filter_eq_self]
      intro a ha
      simp only [ne_eq, decide_not, Bool.not_eq_true', decide_eq_false_iff_not]
      exact fun e => h2 (e ▸ ha)
    simp [h1, h2, List.filter, hf1, hf2]
    intro a ha e
    exact h2 (e ▸ ha)
  · obtain ⟨he, hm⟩ := setupDaemonRoot_establishes u g st
    exact setupDaemonRoot_noop u g _ he hm

/-- Claim C5 witness: a fresh root, and a flat pre-existing root holding
`a` and `b` that migrates both under `"0.0"`. -/
theorem setupDaemonRoot_migration_witness :
    setupDaemonRoot false 0 0 ⟨false, 0, [], []⟩ =
      (⟨true, 0o755, ["0.0"], []⟩, []) ∧
    setupDaemonRoot false 0 0 ⟨true, 0o700, ["a", "b"], []⟩ =
      (⟨true, 0o755, ["0.0"], ["a", "b"]⟩, ["a", "b"]) :=
  ⟨(setupDaemonRoot_migration 0 0 ⟨false, 0, [], []⟩).1 rfl,
   (setupDaemonRoot_migration 0 0 ⟨true, 0o700, ["a", "b"], []⟩).2.1 rfl (by decide)⟩

end Daemon

namespace Devmapper

/-- Claim C7: Remove is a success no-op (no DeviceSet and no mountpoint
action) when HasDevice is false; when the device exists it deletes it and
removes the mountpoint directory, swallowing exactly a does-not-exist
error from the removal and propagating any other error. -/
theorem driverRemove_idempotent_absent (ds : DeviceSetOracle) (fs : FsOracle)
    (home id : String) :
    (ds.hasDevice id = false → driverRemove ds fs home id = (.ok (), [])) ∧
    (ds.hasDevice id = true →
      (∀ e, ds.deleteDevice id = .error e →
        driverRemove ds fs home id = (.error e, [.deleteDevice id])) ∧
      (ds.deleteDevice id = .ok () →
        (fs.removeAll (mntPath home id) = .ok () →
          driverRemove ds fs home id =
            (.ok (), [.deleteDevice id, .removeAll (mntPath home id)])) ∧
        (∀ e, fs.removeAll (mntPath home id) = .error e → isNotExist e = true →
          driverRemove ds fs home id =
            (.ok (), [.deleteDevice id, .removeAll (mntPath home id)])) ∧
        (∀ e, fs.removeAll (mntPath home id) = .error e → isNotExist e = false →
          driverRemove ds fs home id =
            (.error e, [.deleteDevice id, .removeAll (mntPath home id)])))) := by
  refine ⟨?_, ?_⟩
  · intro h
    unfold driverRemove
    simp [h]
  · intro h
    refine ⟨?_, ?_⟩
    · intro e he
      unfold driverRemove
      simp [h, he]
    · intro hd
      refine ⟨?_, ?_, ?_⟩
      · intro hr
        unfold driverRemove
        simp [h, hd, hr]
      · intro e he hne
        unfold driverRemove
        simp [h, hd, he, hne]
      · intro e he hne
        unfold driverRemove
        simp [h, hd, he, hne]

/-- Claim C7 witness: an absent device is a no-op; a present device is
deleted and its mountpoint removed. -/
theorem driverRemove_idempotent_absent_witness :
    driverRemove dsAbsent fsOk "home" "dev" = (.ok (), []) ∧
    driverRemove dsPresent fsOk "home" "dev" =
      (.ok (), [.deleteDevice "dev", .removeAll (mntPath "home" "dev")]) :=
  ⟨(driverRemove_idempotent_absent dsAbsent fsOk "home" "dev").1 rfl,
   (((driverRemove_idempotent_absent dsPresent fsOk "home" "dev").2 rfl).2 rfl).1 rfl⟩

theorem countMounts_append (a b : List DriverAction) :
    countMounts (a ++ b) = countMounts a + countMounts b := by
  simp [countMounts, List.filter_append]

theorem countUnmounts_append (a b : List DriverAction) :
    countUnmounts (a ++ b) = countUnmounts a + countUnmounts b := by
  simp [countUnmounts, List.filter_append]

theorem driverGet_success (ds : DeviceSetOracle) (fs : FsOracle)
    (um gm : Option (List IdTools.IDMap)) (home id lbl : String) (p : String)
    (tr : List DriverAction)
    (h : driverGet ds fs um gm home id lbl = (.ok p, tr)) :
    p = home ++ "/mnt/" ++ id ++ "/rootfs" ∧
    countMounts tr = 1 ∧ countUnmounts tr = 0 := by
  unfold driverGet at h
  simp only [] at h
  cases hg : IdTools.GetRootUidGid um gm with
  | error e => rw [hg] at h; simp at h
  | ok ug =>
    rw [hg] at h
    obtain ⟨uid, gid⟩ := ug
    simp only [] at h
    cases hA : okOrExist (fs.mkdirAllAs (home ++ "/mnt")) with
    | some e => rw [hA] at h; simp at h
    | none =>
      rw [hA] at h
      cases hB : okOrExist (fs.mkdirAs (mntPath home id)) with
      | some e => rw [hB] at h; simp at h
      | none =>
        rw [hB] at h
        cases hM : ds.mountDevice id (mntPath home id) lbl with
        | error e => rw [hM] at h; simp at h
        | ok u =>
          rw [hM] at h
          cases hR : okOrExist (fs.mkdirAllAs (mntPath home id ++ "/rootfs")) with
          | some e => rw [hR] at h; simp at h
          | none =>
            rw [hR] at h
            cases hS : fs.statFile (mntPath home id ++ "/id") with
            | ok u2 =>
              rw [hS] at h
              simp only [Prod.mk.injEq, Except.ok.injEq] at h
              obtain ⟨hp, htr⟩ := h
              subst hp
              subst htr
              refine ⟨rfl, by simp [countMounts, List.filter, mntPath], by simp [countUnmounts, List.filter, mntPath]⟩
            | error se =>
              rw [hS] at h
              simp only [] at h
              cases hN : isNotExist se with
              | false =>
                rw [hN] at h
                simp only [Bool.false_eq_true, if_false, Prod.mk.injEq, Except.ok.injEq] at h
                obtain ⟨hp, htr⟩ := h
                subst hp
                subst htr
                refine ⟨rfl, by simp [countMounts, List.filter, mntPath], by simp [countUnmounts, List.filter, mntPath]⟩
              | true =>
                rw [hN] at h
                cases hW : fs.writeFile (mntPath home id ++ "/id") id with
                | error e => rw [hW] at h; simp at h
                | ok u3 =>
                  rw [hW] at h
                  simp at h
                  obtain ⟨hp, htr⟩ := h
                  subst hp
                  subst htr
                  refine ⟨rfl, by simp [countMounts, List.filter, mntPath], by simp [countUnmounts, List.filter, mntPath]⟩

/-- Claim C8: a successful Get returns `home/mnt/<id>/rootfs` and its
trace holds exactly one MountDevice and no UnmountDevice, so Get followed
immediately by Put balances the two calls 1:1; and if creating the
`rootfs` subdirectory — or writing the absent `id` marker — fails after
the device is mounted, Get unmounts the device before returning the
error. -/
theorem driverGet_put_balanced (ds : DeviceSetOracle) (fs : FsOracle)
    (um gm : Option (List IdTools.IDMap)) (home id lbl : String) :
    (∀ p tr, driverGet ds fs um gm home id lbl = (.ok p, tr) →
      p = home ++ "/mnt/" ++ id ++ "/rootfs" ∧
      countMounts tr = 1 ∧ countUnmounts tr = 0 ∧
      countMounts (tr ++ (driverPut ds id).2) =
        countUnmounts (tr ++ (driverPut ds id).2)) ∧
    (∀ uid gid e,
      IdTools.GetRootUidGid um gm = .ok (uid, gid) →
      okOrExist (fs.mkdirAllAs (home ++ "/mnt")) = none →
      okOrExist (fs.mkdirAs (mntPath home id)) = none →
      ds.mountDevice id (mntPath home id) lbl = .ok () →
      okOrExist (fs.mkdirAllAs (mntPath home id ++ "/rootfs")) = some e →
      driverGet ds fs um gm home id lbl =
        (.error e,
         [.mkdirAllAs (home ++ "/mnt") uid gid, .mkdirAs (mntPath home id) uid gid,
          .mountDevice id (mntPath home id) lbl,
          .mkdirAllAs (mntPath home id ++ "/rootfs") uid gid,
          .unmountDevice id])) ∧
    (∀ uid gid se e,
      IdTools.GetRootUidGid um gm = .ok (uid, gid) →
      okOrExist (fs.mkdirAllAs (home ++ "/mnt")) = none →
      okOrExist (fs.mkdirAs (mntPath home id)) = none →
      ds.mountDevice id (mntPath home id) lbl = .ok () →
      okOrExist (fs.mkdirAllAs (mntPath home id ++ "/rootfs")) = none →
      fs.statFile (mntPath home id ++ "/id") = .error se →
      isNotExist se = true →
      fs.writeFile (mntPath home id ++ "/id") id = .error e →
      driverGet ds fs um gm home id lbl =
        (.error e,
         [.mkdirAllAs (home ++ "/mnt") uid gid, .mkdirAs (mntPath home id) uid gid,
          .mountDevice id (mntPath home id) lbl,
          .mkdirAllAs (mntPath home id ++ "/rootfs") uid gid,
          .statFile (mntPath home id ++ "/id"),
          .writeFile (mntPath home id ++ "/id") id,
          .unmountDevice id])) := by
  refine ⟨?_, ?_, ?_⟩
  · intro p tr h
    obtain ⟨hp, hm, hu⟩ := driverGet_success ds fs um gm home id lbl p tr h
    refine ⟨hp, hm, hu, ?_⟩
    rw [countMounts_append, countUnmounts_append, hm, hu]
    simp [driverPut, countMounts, countUnmounts, List.filter]
  · intro uid gid e hg hA hB hM hR
    unfold driverGet
    simp only [mntPath] at hB hM hR ⊢
    simp [hg, hA, hB, hM, hR]
  · intro uid gid se e hg hA hB hM hR hS hN hW
    unfold driverGet
    simp only [mntPath] at hB hM hR hS hW ⊢
    simp [hg, hA, hB, hM, hR, hS, hN, hW]

/-- Claim C8 witness: with a present device and a filesystem where the id
marker is absent, Get succeeds with the expected rootfs path and a
Get-then-Put trace balancing mounts and unmounts 1:1; and when creating
rootfs fails after the mount, the trace ends by unmounting. -/
theorem driverGet_put_balanced_witness :
    ("h/mnt/i/rootfs" = "h" ++ "/mnt/" ++ "i" ++ "/rootfs" ∧
      countMounts getTrace = 1 ∧ countUnmounts getTrace = 0 ∧
      countMounts (getTrace ++ (driverPut dsPresent "i").2) =
        countUnmounts (getTrace ++ (driverPut dsPresent "i").2)) ∧
    driverGet dsPresent fsRootfsFail none none "h" "i" "lbl" =
      (.error (.other "boom"),
       [.mkdirAllAs ("h" ++ "/mnt") 0 0, .mkdirAs (mntPath "h" "i") 0 0,
        .mountDevice "i" (mntPath "h" "i") "lbl",
        .mkdirAllAs (mntPath "h" "i" ++ "/rootfs") 0 0,
        .unmountDevice "i"]) :=
  ⟨(driverGet_put_balanced dsPresent fsOk none none "h" "i" "lbl").1
      "h/mnt/i/rootfs" getTrace (by decide),
   (driverGet_put_balanced dsPresent fsRootfsFail none none "h" "i" "lbl").2.1
      0 0 (.other "boom") rfl (by decide) (by decide) rfl (by decide)⟩

end Devmapper

namespace IdTools

/-- Claim C10: MkdirAs/MkdirAllAs issue exactly one create call on the
full path and at most one Chown, and every Chown in the trace targets the
full path argument with the requested owner — intermediate parents created
by MkdirAll are never chowned, and when the leaf already exists nothing
but the leaf chown happens. -/
theorem mkdirAs_chown_leaf_only (fs : MkdirFs) (path : String) (mode : Nat)
    (uid gid : Int) (mkAll : Bool) :
    (MkdirAllAs fs path mode uid gid = mkdirAs fs path mode uid gid true) ∧
    (MkdirAs fs path mode uid gid = mkdirAs fs path mode uid gid false) ∧
    (∀ p u g, MkdirAction.chown p u g ∈ (mkdirAs fs path mode uid gid mkAll).2 →
      p = path ∧ u = uid ∧ g = gid) ∧
    ((mkdirAs fs path mode uid gid mkAll).2 =
        [if mkAll then MkdirAction.mkdirAll path mode else MkdirAction.mkdir path mode] ∨
      (mkdirAs fs path mode uid gid mkAll).2 =
        [if mkAll then MkdirAction.mkdirAll path mode else MkdirAction.mkdir path mode,
         MkdirAction.chown path uid gid]) := by
  refine ⟨rfl, rfl, ?_, ?_⟩
  · intro p u g hmem
    unfold mkdirAs at hmem
    cases mkAll <;> simp only [if_true, if_false] at hmem <;>
      split at hmem <;> try split at hmem
    all_goals simp_all
  · unfold mkdirAs
    cases mkAll <;> simp only [if_true, if_false] <;>
      split <;> try split
    all_goals simp_all

/-- Claim C10 witness: a chown recorded by MkdirAllAs on `a/b` targets
exactly `a/b` with the requested owner. -/
theorem mkdirAs_chown_leaf_only_witness :
    ("a/b" = "a/b" ∧ (7 : Int) = 7 ∧ (8 : Int) = 8) :=
  (mkdirAs_chown_leaf_only mfsOk "a/b" 448 7 8 true).2.2.1 "a/b" 7 8 (by decide)

end IdTools

namespace Chrootarchive

/-- Claim C2: post-chroot unpacking writes only under `dest` — every
materialised path extends `dest`, an `etc/hostname` entry with content X
lands at `dest/etc/hostname` with content X, the reported size is at least
the length of X, and the escaping entry name `../escape` resolves to
`dest/escape`, inside the destination. -/
theorem applyLayer_confined (dest : List String) (entries : List TarEntry) :
    (∀ pc ∈ (ApplyLayer dest entries).2, ∃ t, pc.1 = dest ++ t) ∧
    (∀ X, TarEntry.mk "etc/hostname" X ∈ entries →
      (dest ++ ["etc", "hostname"], X) ∈ (ApplyLayer dest entries).2 ∧
      X.length ≤ (ApplyLayer dest entries).1) ∧
    chrootResolve dest (GoStrings.split "../escape" '/') = dest ++ ["escape"] := by
  refine ⟨?_, ?_, ?_⟩
  · intro pc hpc
    simp only [ApplyLayer, unpackLayerChrooted, List.mem_map] at hpc
    obtain ⟨e, he, rfl⟩ := hpc
    exact ⟨normalizePath (GoStrings.split e.name '/'), rfl⟩
  · intro X hX
    constructor
    · simp only [ApplyLayer, unpackLayerChrooted, List.mem_map]
      refine ⟨⟨"etc/hostname", X⟩, hX, ?_⟩
      show (chrootResolve dest (GoStrings.split "etc/hostname" '/'), X) = _
      rw [chrootResolve,
        (by decide : normalizePath (GoStrings.split "etc/hostname" '/') = ["etc", "hostname"])]
    · have hmem : X.length ∈ entries.map (fun e => e.content.length) :=
        List.mem_map_of_mem (fun e => e.content.length) hX
      exact List.single_le_sum (fun x _ => Nat.zero_le x) _ hmem
  · rw [chrootResolve,
      (by decide : normalizePath (GoStrings.split "../escape" '/') = ["escape"])]

/-- Claim C2 witness: the §8 end-to-end archive — `etc/hostname` with
content `X` plus the escaping `../escape` — lands inside the destination
with the hostname file in place and a size covering its content. -/
theorem applyLayer_confined_witness :
    ((["d"] ++ ["etc", "hostname"], "X") ∈
      (ApplyLayer ["d"] [⟨"etc/hostname", "X"⟩, ⟨"../escape", "Y"⟩]).2) ∧
    "X".length ≤ (ApplyLayer ["d"] [⟨"etc/hostname", "X"⟩, ⟨"../escape", "Y"⟩]).1 :=
  (applyLayer_confined ["d"] [⟨"etc/hostname", "X"⟩, ⟨"../escape", "Y"⟩]).2.1 "X"
    (by decide)

end Chrootarchive
